import Mathlib

set_option maxRecDepth 8192

/-!
Verification development for the Dump1090 core: a shallow embedding of the
2.4 MHz Mode-S demodulator (src/src/externals/demod_2400.c) and of the
network service handlers (src/net_io.c), with theorems checking the
natural-language specification against the embedded code.

Magnitude samples are modelled as a total function from sample index to the
16-bit magnitude value; machine integers are modelled as Nat/Int (the uint16
connection counter uses explicit reduction modulo 2^16 where its wraparound
matters).  External collaborators (scoreModesMessage, decodeModesMessage,
the frame handlers) are oracle parameters.
-/

/- ===================================================================
   Demodulator: slice correlation functions (demod_2400.c, lines 205-230)
   =================================================================== -/

/-- Correlation function for phase offset 0, coefficients (+18,-15,-3). -/
def slice_phase0 (m : ℕ → ℕ) (i : ℕ) : ℤ :=
  18 * (m i : ℤ) - 15 * (m (i + 1) : ℤ) - 3 * (m (i + 2) : ℤ)

/-- Correlation function for phase offset 1, coefficients (+14,-5,-9). -/
def slice_phase1 (m : ℕ → ℕ) (i : ℕ) : ℤ :=
  14 * (m i : ℤ) - 5 * (m (i + 1) : ℤ) - 9 * (m (i + 2) : ℤ)

/-- Correlation function for phase offset 2, coefficients (+16,+5,-20). -/
def slice_phase2 (m : ℕ → ℕ) (i : ℕ) : ℤ :=
  16 * (m i : ℤ) + 5 * (m (i + 1) : ℤ) - 20 * (m (i + 2) : ℤ)

/-- Correlation function for phase offset 3, coefficients (+7,+11,-18). -/
def slice_phase3 (m : ℕ → ℕ) (i : ℕ) : ℤ :=
  7 * (m i : ℤ) + 11 * (m (i + 1) : ℤ) - 18 * (m (i + 2) : ℤ)

/-- Correlation function for phase offset 4, coefficients (+4,+15,-20,+1). -/
def slice_phase4 (m : ℕ → ℕ) (i : ℕ) : ℤ :=
  4 * (m i : ℤ) + 15 * (m (i + 1) : ℤ) - 20 * (m (i + 2) : ℤ) + 1 * (m (i + 3) : ℤ)

/-- Bit contribution: the C pattern (slice_phaseN(...) > 0 ? mask : 0). -/
def bitOf (x : ℤ) (mask : ℕ) : ℕ := if 0 < x then mask else 0

/-- Result of slicing one byte: the byte, advanced pointer, advanced phase,
and the list of sample indices read while slicing. -/
structure SliceOut where
  byte : ℕ
  ptr : ℕ
  phase : ℕ
  reads : List ℕ
deriving DecidableEq

/-- Shallow embedding of slice_byte (demod_2400.c, lines 365-445): extract
one byte starting at sample ptr with the given phase, advancing the pointer
by 19 samples (phases 0-3) or 20 samples (phase 4) and rotating the phase.
A phase outside 0..4 falls through the C switch: byte 0, no advancement. -/
def slice_byte (m : ℕ → ℕ) (ptr : ℕ) (phase : ℕ) : SliceOut :=
  match phase with
  | 0 =>
    { byte :=
        bitOf (slice_phase0 m ptr) 0x80 |||
        bitOf (slice_phase2 m (ptr + 2)) 0x40 |||
        bitOf (slice_phase4 m (ptr + 4)) 0x20 |||
        bitOf (slice_phase1 m (ptr + 7)) 0x10 |||
        bitOf (slice_phase3 m (ptr + 9)) 0x08 |||
        bitOf (slice_phase0 m (ptr + 12)) 0x04 |||
        bitOf (slice_phase2 m (ptr + 14)) 0x02 |||
        bitOf (slice_phase4 m (ptr + 16)) 0x01,
      ptr := ptr + 19, phase := 1,
      reads := [0, 1, 2, 2, 3, 4, 4, 5, 6, 7, 7, 8, 9, 9, 10, 11,
                12, 13, 14, 14, 15, 16, 16, 17, 18, 19].map (ptr + ·) }
  | 1 =>
    { byte :=
        bitOf (slice_phase1 m ptr) 0x80 |||
        bitOf (slice_phase3 m (ptr + 2)) 0x40 |||
        bitOf (slice_phase0 m (ptr + 5)) 0x20 |||
        bitOf (slice_phase2 m (ptr + 7)) 0x10 |||
        bitOf (slice_phase4 m (ptr + 9)) 0x08 |||
        bitOf (slice_phase1 m (ptr + 12)) 0x04 |||
        bitOf (slice_phase3 m (ptr + 14)) 0x02 |||
        bitOf (slice_phase0 m (ptr + 17)) 0x01,
      ptr := ptr + 19, phase := 2,
      reads := [0, 1, 2, 2, 3, 4, 5, 6, 7, 7, 8, 9, 9, 10, 11, 12,
                12, 13, 14, 14, 15, 16, 17, 18, 19].map (ptr + ·) }
  | 2 =>
    { byte :=
        bitOf (slice_phase2 m ptr) 0x80 |||
        bitOf (slice_phase4 m (ptr + 2)) 0x40 |||
        bitOf (slice_phase1 m (ptr + 5)) 0x20 |||
        bitOf (slice_phase3 m (ptr + 7)) 0x10 |||
        bitOf (slice_phase0 m (ptr + 10)) 0x08 |||
        bitOf (slice_phase2 m (ptr + 12)) 0x04 |||
        bitOf (slice_phase4 m (ptr + 14)) 0x02 |||
        bitOf (slice_phase1 m (ptr + 17)) 0x01,
      ptr := ptr + 19, phase := 3,
      reads := [0, 1, 2, 2, 3, 4, 5, 5, 6, 7, 7, 8, 9, 10, 11, 12,
                12, 13, 14, 14, 15, 16, 17, 17, 18, 19].map (ptr + ·) }
  | 3 =>
    { byte :=
        bitOf (slice_phase3 m ptr) 0x80 |||
        bitOf (slice_phase0 m (ptr + 3)) 0x40 |||
        bitOf (slice_phase2 m (ptr + 5)) 0x20 |||
        bitOf (slice_phase4 m (ptr + 7)) 0x10 |||
        bitOf (slice_phase1 m (ptr + 10)) 0x08 |||
        bitOf (slice_phase3 m (ptr + 12)) 0x04 |||
        bitOf (slice_phase0 m (ptr + 15)) 0x02 |||
        bitOf (slice_phase2 m (ptr + 17)) 0x01,
      ptr := ptr + 19, phase := 4,
      reads := [0, 1, 2, 3, 4, 5, 5, 6, 7, 7, 8, 9, 10, 10, 11, 12,
                12, 13, 14, 15, 16, 17, 17, 18, 19].map (ptr + ·) }
  | 4 =>
    { byte :=
        bitOf (slice_phase4 m ptr) 0x80 |||
        bitOf (slice_phase1 m (ptr + 3)) 0x40 |||
        bitOf (slice_phase3 m (ptr + 5)) 0x20 |||
        bitOf (slice_phase0 m (ptr + 8)) 0x10 |||
        bitOf (slice_phase2 m (ptr + 10)) 0x08 |||
        bitOf (slice_phase4 m (ptr + 12)) 0x04 |||
        bitOf (slice_phase1 m (ptr + 15)) 0x02 |||
        bitOf (slice_phase3 m (ptr + 17)) 0x01,
      ptr := ptr + 20, phase := 0,
      reads := [0, 1, 2, 3, 3, 4, 5, 5, 6, 7, 8, 9, 10, 10, 11, 12,
                12, 13, 14, 15, 15, 16, 17, 17, 18, 19].map (ptr + ·) }
  | _ => { byte := 0, ptr := ptr, phase := phase, reads := [] }

/- ===================================================================
   Demodulator: acceptable-DF bitsets (demod_2400.c, lines 327-360)
   =================================================================== -/

/-- Shallow embedding of generate_damage_set: the bitset of all DF values
reachable from df by flipping at most damage_bits of its five bits. -/
def generate_damage_set : ℕ → ℕ → ℕ
  | df, 0 => 1 <<< df
  | df, damage + 1 =>
    (List.range 5).foldl
      (fun acc bit => acc ||| generate_damage_set (df ^^^ (1 <<< bit)) damage)
      (1 <<< df)

/-- Acceptable DFs for short (7-byte) frames: set {0,4,5,11}. -/
def valid_df_short_bitset : ℕ :=
  (1 <<< 0) ||| (1 <<< 4) ||| (1 <<< 5) ||| (1 <<< 11)

/-- Acceptable DFs for long (14-byte) frames, as built by init_bitsets:
base set {16,17,18,20,21}, optionally extended with {24..31} when the
ENABLE_DF24 build option is set, and extended with the single-bit-damage
set of DF17 when both fixDF and nfix_crc are enabled. -/
def valid_df_long_bitset (fixDF : Bool) (nfix_crc : ℕ) (enable_df24 : Bool) : ℕ :=
  let base := (1 <<< 16) ||| (1 <<< 17) ||| (1 <<< 18) ||| (1 <<< 20) ||| (1 <<< 21)
  let base := if enable_df24 then
      base ||| ((1 <<< 24) ||| (1 <<< 25) ||| (1 <<< 26) ||| (1 <<< 27) |||
                (1 <<< 28) ||| (1 <<< 29) ||| (1 <<< 30) ||| (1 <<< 31))
    else base
  if fixDF && (nfix_crc != 0) then base ||| generate_damage_set 17 1 else base

/- ===================================================================
   Demodulator: score_phase (demod_2400.c, lines 447-490)
   =================================================================== -/

/-- Best-candidate state threaded through score_phase calls: the bytes of
the best message so far, its score, and its winning try_phase. -/
structure DemodState where
  bestBytes : List ℕ
  bestscore : ℤ
  bestphase : ℕ
deriving DecidableEq

/-- Result of one score_phase attempt: the updated best-candidate state,
how many bytes were sliced, the scoreModesMessage invocations made
(payload and bit count), and the sample indices read. -/
structure PhaseOut where
  st : DemodState
  sliced : ℕ
  scorerCalls : List (List ℕ × ℕ)
  reads : List ℕ
deriving DecidableEq

/-- Slice n consecutive bytes, threading pointer and phase; returns the
bytes, the final pointer and phase, and the sample indices read. -/
def slice_bytes (m : ℕ → ℕ) (ptr phase : ℕ) : ℕ → List ℕ × ℕ × ℕ × List ℕ
  | 0 => ([], ptr, phase, [])
  | n + 1 =>
    let s := slice_byte m ptr phase
    let r := slice_bytes m s.ptr s.phase n
    (s.byte :: r.1, r.2.1, r.2.2.1, s.reads ++ r.2.2.2)

/-- Shallow embedding of score_phase: slice the first byte at
pa + 19 + try_phase/5 with phase try_phase mod 5, gate on the DF (top five
bits); if the DF is in neither bitset the attempt aborts with score -2
(updating only the best score, never the best message or phase) and the
scorer is not called; otherwise the remaining bytes of the 14- or 7-byte
frame are sliced, scoreModesMessage is consulted, and a strictly higher
score replaces the best candidate. -/
def score_phase (scorer : List ℕ → ℕ → ℤ) (ssSet lsSet : ℕ) (m : ℕ → ℕ)
    (pa try_phase : ℕ) (st : DemodState) : PhaseOut :=
  let pPtr := pa + 19 + try_phase / 5
  let phase := try_phase % 5
  let s0 := slice_byte m pPtr phase
  let df := s0.byte >>> 3
  if Nat.testBit lsSet df then
    let r := slice_bytes m s0.ptr s0.phase 13
    let msgBytes := s0.byte :: r.1
    let score := scorer msgBytes (14 * 8)
    { st := if st.bestscore < score then ⟨msgBytes, score, try_phase⟩ else st,
      sliced := 14,
      scorerCalls := [(msgBytes, 14 * 8)],
      reads := s0.reads ++ r.2.2.2 }
  else if Nat.testBit ssSet df then
    let r := slice_bytes m s0.ptr s0.phase 6
    let msgBytes := s0.byte :: r.1
    let score := scorer msgBytes (7 * 8)
    { st := if st.bestscore < score then ⟨msgBytes, score, try_phase⟩ else st,
      sliced := 7,
      scorerCalls := [(msgBytes, 7 * 8)],
      reads := s0.reads ++ r.2.2.2 }
  else
    { st := { st with bestscore := if st.bestscore < -2 then -2 else st.bestscore },
      sliced := 1,
      scorerCalls := [],
      reads := s0.reads }

/- ===================================================================
   Demodulator: demodulate2400 (demod_2400.c, lines 496-706)
   =================================================================== -/

/-- Magnitude buffer: sample data (total function on indices; indices at or
past length model the trailing padding the C comments mention), sample
count, and the start-of-buffer 12 MHz sample-clock timestamp. -/
structure MagBuf where
  data : ℕ → ℕ
  length : ℕ
  sampleTimestamp : ℕ

/-- Demodulator configuration taken from the Modes globals. -/
structure DemodCfg where
  preambleThreshold : ℕ
  samplesDropped : Bool
  fixDF : Bool
  nfix_crc : ℕ
  enable_df24 : Bool

/-- A message accepted by the demodulator: sliced payload bytes, their
count, the sample offset of the preamble, the winning try_phase, the
12 MHz timestamp stamped at end-of-bit-56, and the winning score. -/
structure DemodMsg where
  bytes : List ℕ
  byteLen : ℕ
  offset : ℕ
  phase : ℕ
  timestamp : ℕ
  score : ℤ
deriving DecidableEq

/-- Outcome of processing one loop position: messages emitted (zero or
one), the next loop position, sample indices read, and the persistent
best-candidate bytes/phase carried to the next position. -/
structure StepOut where
  msgs : List DemodMsg
  next : ℕ
  reads : List ℕ
  keepBytes : List ℕ
  keepPhase : ℕ

/-- Preamble pre-check at offset q: pa[1] > pa[7] and pa[12] > pa[14] and
pa[12] > pa[15] (demod_2400.c, line 540). -/
def precheck (m : ℕ → ℕ) (q : ℕ) : Bool :=
  decide (m (q + 7) < m (q + 1)) &&
  (decide (m (q + 14) < m (q + 12)) && decide (m (q + 15) < m (q + 12)))

/-- Sample indices the short-circuited pre-check comparison actually reads. -/
def precheck_reads (m : ℕ → ℕ) (q : ℕ) : List ℕ :=
  [q + 1, q + 7] ++
  (if m (q + 7) < m (q + 1) then
     [q + 12, q + 14] ++ (if m (q + 14) < m (q + 12) then [q + 12, q + 15] else [])
   else [])

/-- The ten-fold unrolled pre-check scan (demod_2400.c, lines 540-549):
returns the first offset in q..q+tries-1 passing the pre-check, plus the
indices read along the way. -/
def find_candidate (m : ℕ → ℕ) : ℕ → ℕ → Option ℕ × List ℕ
  | _, 0 => (none, [])
  | q, tries + 1 =>
    if precheck m q then (some q, precheck_reads m q)
    else
      let r := find_candidate m (q + 1) tries
      (r.1, precheck_reads m q ++ r.2)

/-- The per-candidate chain of up to five score_phase attempts, one pair
per passing phase-group test g1/g2/g3 (demod_2400.c, lines 582-607);
returns the final best-candidate state. -/
def phase_chain (scorer : List ℕ → ℕ → ℤ) (ssSet lsSet : ℕ) (m : ℕ → ℕ)
    (q : ℕ) (g1 g2 g3 : Bool) (st0 : DemodState) : DemodState :=
  let stA := if g1 then
      (score_phase scorer ssSet lsSet m q 5
        (score_phase scorer ssSet lsSet m q 4 st0).st).st
    else st0
  let stB := if g2 then
      (score_phase scorer ssSet lsSet m q 7
        (score_phase scorer ssSet lsSet m q 6 stA).st).st
    else stA
  if g3 then (score_phase scorer ssSet lsSet m q 8 stB).st else stB

/-- Sample indices read by the chain of score_phase attempts. -/
def phase_chain_reads (scorer : List ℕ → ℕ → ℤ) (ssSet lsSet : ℕ) (m : ℕ → ℕ)
    (q : ℕ) (g1 g2 g3 : Bool) (st0 : DemodState) : List ℕ :=
  let o1 := score_phase scorer ssSet lsSet m q 4 st0
  let o2 := score_phase scorer ssSet lsSet m q 5 o1.st
  let stA := if g1 then o2.st else st0
  let rA := if g1 then o1.reads ++ o2.reads else []
  let o3 := score_phase scorer ssSet lsSet m q 6 stA
  let o4 := score_phase scorer ssSet lsSet m q 7 o3.st
  let stB := if g2 then o4.st else stA
  let rB := if g2 then o3.reads ++ o4.reads else []
  let o5 := score_phase scorer ssSet lsSet m q 8 stB
  rA ++ rB ++ (if g3 then o5.reads else [])

/-- Embedding of modesMessageLenByType (demod_2400.c, lines 322-325): the
most significant DF bit selects 112 or 56 message bits. -/
def modesMessageLenByType (type : ℕ) : ℕ :=
  if type &&& 0x10 ≠ 0 then 14 * 8 else 7 * 8

/-- The accept/reject tail of candidate processing (demod_2400.c, lines
610-695): a best score of -42 means no phase-group fired, a negative best
score is a rejected candidate, a failed decode is also rejected; otherwise
the message is stamped at ts + q*5 + (8+56)*12 + bestphase, the signal
power loop reads msglen*12/5 samples from q+19, and the loop skips
msglen*8/4 samples plus the for-loop increment. -/
def finish_candidate (decoder : List ℕ → ℤ) (ts q : ℕ) (stC : DemodState)
    (allReads : List ℕ) : StepOut :=
  if stC.bestscore = -42 then ⟨[], q + 1, allReads, stC.bestBytes, stC.bestphase⟩
  else if stC.bestscore < 0 then ⟨[], q + 1, allReads, stC.bestBytes, stC.bestphase⟩
  else
    let df := stC.bestBytes.headD 0 >>> 3
    let msglen := modesMessageLenByType df
    if decoder stC.bestBytes < 0 then
      ⟨[], q + 1, allReads, stC.bestBytes, stC.bestphase⟩
    else
      let sigReads := (List.range (msglen * 12 / 5)).map (fun k => q + 19 + k)
      ⟨[⟨stC.bestBytes, stC.bestBytes.length, q, stC.bestphase,
         ts + q * 5 + (8 + 56) * 12 + stC.bestphase, stC.bestscore⟩],
       q + msglen * 8 / 4 + 1, allReads ++ sigReads,
       stC.bestBytes, stC.bestphase⟩

/-- Processing of one pre-check candidate at offset q: noise and reference
level, the three phase-group tests, the score_phase chain, and the
accept/reject decision (demod_2400.c, lines 559-695). -/
def process_candidate (cfg : DemodCfg) (scorer : List ℕ → ℕ → ℤ)
    (decoder : List ℕ → ℤ) (ssSet lsSet : ℕ) (ts : ℕ) (m : ℕ → ℕ) (q : ℕ)
    (keepB : List ℕ) (keepP : ℕ) : StepOut :=
  let base_noise := m (q + 5) + m (q + 8) + m (q + 16) + m (q + 17) + m (q + 18)
  let thr := if cfg.samplesDropped then max 75 cfg.preambleThreshold
             else cfg.preambleThreshold
  let ref_level : ℤ := ((base_noise * thr) >>> 5 : ℕ)
  let diff_2_3 : ℤ := (m (q + 2) : ℤ) - (m (q + 3) : ℤ)
  let sum_1_4 : ℤ := (m (q + 1) : ℤ) + (m (q + 4) : ℤ)
  let diff_10_11 : ℤ := (m (q + 10) : ℤ) - (m (q + 11) : ℤ)
  let common3456 : ℤ := sum_1_4 - diff_2_3 + (m (q + 9) : ℤ) + (m (q + 12) : ℤ)
  let g1 := decide (ref_level ≤ common3456 - diff_10_11)
  let g2 := decide (ref_level ≤ common3456 + diff_10_11)
  let g3 := decide (ref_level ≤ sum_1_4 + 2 * diff_2_3 + diff_10_11 + (m (q + 12) : ℤ))
  let stC := phase_chain scorer ssSet lsSet m q g1 g2 g3 ⟨keepB, -42, keepP⟩
  let allReads :=
    [q + 5, q + 8, q + 16, q + 17, q + 18] ++
    [q + 2, q + 3, q + 1, q + 4, q + 10, q + 11, q + 9, q + 12] ++
    phase_chain_reads scorer ssSet lsSet m q g1 g2 g3 ⟨keepB, -42, keepP⟩
  finish_candidate decoder ts q stC allReads

/-- One iteration of the demodulate2400 sample loop starting at pa: the
unrolled pre-check scan, then candidate processing when the winning offset
is still below stop. -/
def demod_step (cfg : DemodCfg) (scorer : List ℕ → ℕ → ℤ)
    (decoder : List ℕ → ℤ) (ssSet lsSet : ℕ) (ts : ℕ) (m : ℕ → ℕ)
    (stop pa : ℕ) (keepB : List ℕ) (keepP : ℕ) : StepOut :=
  let f := find_candidate m pa 10
  match f.1 with
  | none => ⟨[], pa + 10, f.2, keepB, keepP⟩
  | some q =>
    if q < stop then
      let c := process_candidate cfg scorer decoder ssSet lsSet ts m q keepB keepP
      ⟨c.msgs, c.next, f.2 ++ c.reads, c.keepBytes, c.keepPhase⟩
    else ⟨[], q + 1, f.2, keepB, keepP⟩

/-- Fuel-indexed sample loop of demodulate2400; the position strictly
increases every iteration, so fuel = length covers the whole buffer. -/
def demod_loop (cfg : DemodCfg) (scorer : List ℕ → ℕ → ℤ)
    (decoder : List ℕ → ℤ) (ssSet lsSet : ℕ) (ts : ℕ) (m : ℕ → ℕ)
    (stop : ℕ) : ℕ → ℕ → List ℕ → ℕ → List DemodMsg × List ℕ
  | 0, _, _, _ => ([], [])
  | fuel + 1, pa, keepB, keepP =>
    if pa < stop then
      let s := demod_step cfg scorer decoder ssSet lsSet ts m stop pa keepB keepP
      let r := demod_loop cfg scorer decoder ssSet lsSet ts m stop fuel
                 s.next s.keepBytes s.keepPhase
      (s.msgs ++ r.1, s.reads ++ r.2)
    else ([], [])

/-- Shallow embedding of demodulate2400: returns all accepted messages and
all sample indices read by the pre-check, the noise/reference computation
and the byte slicer. -/
def demodulate2400 (cfg : DemodCfg) (scorer : List ℕ → ℕ → ℤ)
    (decoder : List ℕ → ℤ) (mag : MagBuf) : List DemodMsg × List ℕ :=
  demod_loop cfg scorer decoder
    valid_df_short_bitset
    (valid_df_long_bitset cfg.fixDF cfg.nfix_crc cfg.enable_df24)
    mag.sampleTimestamp mag.data mag.length mag.length 0 [] 0

/-- Preamble window: the preamble occupies samples 0..18 of a candidate,
the first payload sample is at offset 19. -/
def preamble_window_samples : ℕ := 19

/-- Payload byte count implied by a clock difference d past the preamble:
d/12 bits total minus the 8 preamble bits, in bytes. -/
def impliedPayloadBytes (d : ℕ) : ℕ := (d / 12 - 8) / 8

/- ===================================================================
   Network reactor: connection accounting (net_io.c, lines 748-1006)
   =================================================================== -/

/-- Increment of a uint16_t counter. -/
def uint16_inc (x : ℕ) : ℕ := (x + 1) % 65536

/-- Decrement of a uint16_t counter (wraps on underflow). -/
def uint16_dec (x : ℕ) : ℕ := (x + 65535) % 65536

/-- Connection record of one service list: remote endpoint id and the
is_accepted flag of its mongoose connection. -/
structure ConnRec where
  rem : ℕ
  is_accepted : Bool
deriving DecidableEq

/-- Per-service reactor state: connection list, the uint16 num_connections
counter, and the statistics counters touched by accept/close handling. -/
structure NetIOState where
  conns : List ConnRec
  num_connections : ℕ
  cli_accepted : ℕ
  cli_removed : ℕ
  srv_removed : ℕ
  cli_unknown : ℕ
  srv_unknown : ℕ
deriving DecidableEq

/-- Embedding of connection_get (net_io.c, lines 291-306): first record
matching the remote address; a miss bumps the srv/cli unknown counter. -/
def connection_get (st : NetIOState) (rem : ℕ) (isServer : Bool) :
    Option ConnRec × NetIOState :=
  match st.conns.find? (fun cn => cn.rem == rem) with
  | some cn => (some cn, st)
  | none =>
    (none,
     if isServer then { st with srv_unknown := st.srv_unknown + 1 }
     else { st with cli_unknown := st.cli_unknown + 1 })

/-- Embedding of net_conn_free (net_io.c, lines 967-1006): when the record
is found in the service list it is unlinked and the cli/srv removed counter
is bumped; num_connections is not touched here. -/
def net_conn_free (st : NetIOState) (oc : Option ConnRec) : NetIOState :=
  match oc with
  | none => st
  | some cn =>
    if cn ∈ st.conns then
      { st with
        conns := st.conns.erase cn,
        cli_removed := if cn.is_accepted then st.cli_removed + 1 else st.cli_removed,
        srv_removed := if cn.is_accepted then st.srv_removed else st.srv_removed + 1 }
    else st

/-- Embedding of client_deny (net_io.c, lines 1236-1248): the deny list is
present as an interface but unconditionally returns false. -/
def client_deny (_rem : ℕ) : Bool := false

/-- Passive-side reactor events relevant to connection accounting: an
accept (with the outcome of the calloc for the connection record) and a
close for a socket with the given remote address. -/
inductive NetEvent where
  | accept (rem : ℕ) (alloc_ok : Bool)
  | close (rem : ℕ)
deriving DecidableEq

/-- Embedding of net_handler for MG_EV_ACCEPT and MG_EV_CLOSE (net_io.c,
lines 819-847 and 882-894).  Accept: a denied client or a failed record
allocation closes the socket without touching any counter; otherwise the
record is linked, num_connections incremented and cli_accepted bumped.
Close: both connection_get lookups are freed, then num_connections is
decremented unconditionally. -/
def net_handler_ev (st : NetIOState) : NetEvent → NetIOState
  | .accept rem alloc_ok =>
    if client_deny rem then st
    else if !alloc_ok then st
    else
      { st with
        conns := st.conns ++ [⟨rem, true⟩],
        num_connections := uint16_inc st.num_connections,
        cli_accepted := st.cli_accepted + 1 }
  | .close rem =>
    let g1 := connection_get st rem false
    let st1 := net_conn_free g1.2 g1.1
    let g2 := connection_get st1 rem true
    let st2 := net_conn_free g2.2 g2.1
    { st2 with num_connections := uint16_dec st2.num_connections }

/-- Run the reactor from the zero-initialised service state. -/
def net_run (evs : List NetEvent) : NetIOState :=
  evs.foldl net_handler_ev ⟨[], 0, 0, 0, 0, 0, 0⟩

/- ===================================================================
   Network reactor: MG_EV_READ dispatch (net_io.c, lines 239-256, 849-871)
   =================================================================== -/

/-- The five logical services. -/
inductive Svc where
  | raw_out | raw_in | sbs_out | sbs_in | http
deriving DecidableEq

/-- Frame handlers passed to net_connection_recv. -/
inductive MsgHandler where
  | raw | sbs
deriving DecidableEq

/-- One net_connection_recv call as issued by the read handler: which
frame handler, the is_server flag, and whether the handler body is
actually invoked (record found and non-empty receive buffer,
net_io.c lines 239-256). -/
structure RecvCall where
  handler : MsgHandler
  as_server : Bool
  invoked : Bool
deriving DecidableEq

/-- Embedding of net_connection_recv's guard: the frame handler runs only
when the connection record was found and the receive buffer is non-empty. -/
def net_connection_recv (found : Bool) (recv_len : ℕ) : Bool :=
  found && decide (0 < recv_len)

/-- Embedding of the MG_EV_READ branch of net_handler: the received byte
count is added to the service byte counter; RAW_IN then issues two
net_connection_recv calls with decode_RAW_message (client side then server
side), SBS_IN issues a single server-side call with decode_SBS_message. -/
def net_handler_read (svc : Svc) (conns : List ℕ) (rem : ℕ)
    (bytes_recv bytes recv_len : ℕ) : ℕ × List RecvCall :=
  let acc := bytes_recv + bytes
  let found := (conns.find? (fun r => r == rem)).isSome
  match svc with
  | .raw_in =>
    (acc, [⟨.raw, false, net_connection_recv found recv_len⟩,
           ⟨.raw, true, net_connection_recv found recv_len⟩])
  | .sbs_in =>
    (acc, [⟨.sbs, true, net_connection_recv found recv_len⟩])
  | _ => (acc, [])

/- ===================================================================
   HTTP: set_headers and favicon content types (net_io.c, lines 308-353)
   =================================================================== -/

/-- The NUL character terminating C strings. -/
def nulChar : Char := Char.ofNat 0

/-- C strcpy into a character buffer at an offset: the source characters
followed by a terminating NUL; bytes outside that span keep their value. -/
def bufWrite (buf : ℕ → Char) (off : ℕ) (s : List Char) : ℕ → Char :=
  fun i =>
    if i < off then buf i
    else if i < off + s.length then s.getD (i - off) nulChar
    else if i = off + s.length then nulChar
    else buf i

/-- Read a C string out of a character buffer: characters up to the first
NUL, bounded by fuel (the static buffer holds 200 bytes). -/
def readCString (buf : ℕ → Char) : ℕ → ℕ → List Char
  | _, 0 => []
  | i, fuel + 1 => if buf i = nulChar then [] else buf i :: readCString buf (i + 1) fuel

/-- Modelled from the spec: MODES_CONTENT_TYPE_PNG lives in a header that
is not under src/; the spec names an explicit PNG content type. -/
def MODES_CONTENT_TYPE_PNG : List Char := "image/png".data

/-- Modelled from the spec: MODES_CONTENT_TYPE_ICON lives in a header that
is not under src/; the spec names an explicit x-icon content type. -/
def MODES_CONTENT_TYPE_ICON : List Char := "image/x-icon".data

/-- Shallow embedding of set_headers (net_io.c, lines 308-330), written
strcpy by strcpy: p starts at the buffer base and is NUL-terminated; for a
content type the code copies the header name to the base, advances p, then
copies the content type again to the base (the source's destination is
headers, not p), advances p, and writes CRLF at p; the keep-alive line is
appended at p when both the global setting and the client flag are set.
The returned value is the C string read from the buffer base. -/
def set_headers (keep_alive : Bool) (cli_keep_alive : Bool)
    (content_type : Option (List Char)) (buf0 : ℕ → Char) : List Char :=
  let b1 := bufWrite buf0 0 []
  let step :=
    match content_type with
    | some ct =>
      let bA := bufWrite b1 0 "Content-Type: ".data
      let bB := bufWrite bA 0 ct
      let p := "Content-Type: ".data.length + ct.length
      let bC := bufWrite bB p "\r\n".data
      (bC, p + 2)
    | none => (b1, 0)
  let b2 :=
    if keep_alive && cli_keep_alive then
      bufWrite step.1 step.2 "Connection: keep-alive\r\n".data
    else step.1
  readCString b2 0 200

/-- Embedding of the response head that send_favicon (net_io.c, lines
339-353) hands to mg_printf: status line, Content-Length, the set_headers
block and the blank line ending the head. -/
def send_favicon_head (keep_alive cli_keep_alive : Bool)
    (content_type : List Char) (data_len : ℕ) (buf0 : ℕ → Char) : List Char :=
  "HTTP/1.1 200 OK\r\nContent-Length: ".data ++ (toString data_len).data ++
  "\r\n".data ++ set_headers keep_alive cli_keep_alive (some content_type) buf0 ++
  "\r\n".data

/- ===================================================================
   HTTP: net_handler_http (net_io.c, lines 383-568)
   =================================================================== -/

/-- ASCII lower-casing as done byte-wise by mg_vcasecmp/stricmp. -/
def charLower (c : Char) : Char :=
  if 'A' ≤ c ∧ c ≤ 'Z' then Char.ofNat (c.toNat + 32) else c

/-- Case-insensitive string equality (mg_vcasecmp/stricmp returning 0). -/
def str_ieq (a b : List Char) : Bool := a.map charLower == b.map charLower

/-- Outcome of the HTTP handler: the returned status and whether the
request reached the URI dispatch section. -/
structure HttpOut where
  status : ℕ
  dispatched : Bool
deriving DecidableEq

/-- Shallow embedding of net_handler_http: the method gate (only GET and
HEAD, case-insensitively, pass; anything else is 400), the connection
record lookup (505 on a miss), then the URI dispatch in source order:
exact "/" (301), /echo (200 upgrade), /data/receiver.json (200), the
aircraft JSON endpoints (200, or 500 when building the JSON fails), paths
with a dot (favicons, else static file: 200 found / 404 missing), and the
final 404. -/
def net_handler_http (method uri : List Char)
    (has_record alloc_ok file_found : Bool) : HttpOut :=
  let is_GET := str_ieq method "GET".data
  let is_HEAD := str_ieq method "HEAD".data
  if !is_GET && !is_HEAD then ⟨400, false⟩
  else if !has_record then ⟨505, false⟩
  else if uri == "/".data then ⟨301, true⟩
  else if str_ieq uri "/echo".data then ⟨200, true⟩
  else if str_ieq uri "/data/receiver.json".data then ⟨200, true⟩
  else if str_ieq uri "/data.json".data || str_ieq uri "/data/aircraft.json".data ||
          str_ieq uri "/chunks/chunks.json".data then
    (if alloc_ok then ⟨200, true⟩ else ⟨500, true⟩)
  else if uri.contains '.' then
    (if str_ieq uri "/favicon.png".data then ⟨200, true⟩
     else if str_ieq uri "/favicon.ico".data then ⟨200, true⟩
     else if file_found then ⟨200, true⟩
     else ⟨404, true⟩)
  else ⟨404, true⟩

/- ===================================================================
   Unique-IP set (net_io.c, lines 1125-1152, 1197-1229)
   =================================================================== -/

/-- The unique-IP set: entries are (address, service, first-seen time);
size is the capacity of the backing array in entries. -/
structure UniqueIPS where
  entries : List (ℕ × ℕ × ℕ)
  size : ℕ
deriving DecidableEq

/-- Shallow embedding of client_is_unique: scan the recorded entries
comparing addresses only; a hit returns false with the set unchanged; on a
miss the array is grown by 200 slots when full (a failed grow returns true
without recording), and the address is appended with its service and the
current time. -/
def client_is_unique (addr svc now : ℕ) (alloc_ok : Bool) (st : UniqueIPS) :
    Bool × UniqueIPS :=
  if st.entries.any (fun e => e.1 == addr) then (false, st)
  else if st.size ≤ st.entries.length then
    if alloc_ok then
      (true, ⟨st.entries ++ [(addr, svc, now)], st.size + 200⟩)
    else (true, st)
  else (true, ⟨st.entries ++ [(addr, svc, now)], st.size⟩)

/-- Embedding of the accept half of client_handler (net_io.c, lines
1197-1229): the unique-clients counter for the service is incremented
exactly when client_is_unique returned true. -/
def client_handler_accept (addr svc now : ℕ) (alloc_ok : Bool)
    (st : UniqueIPS) (unique_clients : ℕ) : UniqueIPS × ℕ :=
  let r := client_is_unique addr svc now alloc_ok st
  (r.2, if r.1 then unique_clients + 1 else unique_clients)

/- ===================================================================
   Concrete inputs used by witnesses and counterexamples
   =================================================================== -/

/-- Demodulator configuration with the nominal threshold 75, no dropped
samples, and DF repair and DF24 disabled. -/
def cfgA : DemodCfg := ⟨75, false, false, 0, false⟩

/-- Scoring oracle accepting everything with score 0. -/
def scorer0 : List ℕ → ℕ → ℤ := fun _ _ => 0

/-- Decoding oracle accepting everything. -/
def decoder0 : List ℕ → ℤ := fun _ => 0

/-- Magnitude samples holding one synthetic candidate at offset 0: the
pre-check passes, base noise is 0, and the sliced first byte at try_phase 4
is 0x88, i.e. DF 17. -/
def dataA : ℕ → ℕ := fun i =>
  if i = 1 then 100 else if i = 12 then 100 else if i = 19 then 10 else
  if i = 29 then 1 else 0

/-- Buffer of 25 samples over dataA with start timestamp 1000. -/
def bufA : MagBuf := ⟨dataA, 25, 1000⟩

/-- The single message the demodulator accepts on bufA with the permissive
oracles: a 14-byte DF17 frame at offset 0, phase 4, timestamp
1000 + 0*5 + 768 + 4. -/
def msgA : DemodMsg := ⟨136 :: List.replicate 13 0, 14, 0, 4, 1772, 0⟩

/-- One-sample all-zero buffer for the short-buffer counterexample. -/
def bufShort : MagBuf := ⟨fun _ => 0, 1, 0⟩

/-- Sample function whose first sliced byte at try_phase 4 from offset 0 is
0x08 (DF 1), outside both DF bitsets when repair is disabled. -/
def dataGate : ℕ → ℕ := fun i => if i = 29 then 1 else 0

/-- Invariant of the best-candidate state: once the best score is
non-negative, the best phase is one of the tried phases 4..8 and the best
bytes are a full 7- or 14-byte frame. -/
def PhaseInv (st : DemodState) : Prop :=
  0 ≤ st.bestscore →
    4 ≤ st.bestphase ∧ st.bestphase ≤ 8 ∧
    (st.bestBytes.length = 7 ∨ st.bestBytes.length = 14)

/- ===================================================================
   Helper lemmas
   =================================================================== -/

theorem slice_bytes_len (m : ℕ → ℕ) :
    ∀ (n ptr ph : ℕ), ((slice_bytes m ptr ph n).1).length = n := by
  intro n
  induction n with
  | zero => intro ptr ph; rfl
  | succ k ih => intro ptr ph; simp [slice_bytes, ih]

theorem score_phase_inv (scorer : List ℕ → ℕ → ℤ) (ssSet lsSet : ℕ)
    (m : ℕ → ℕ) (pa tp : ℕ) (st : DemodState) (htp4 : 4 ≤ tp) (htp8 : tp ≤ 8)
    (h : PhaseInv st) : PhaseInv (score_phase scorer ssSet lsSet m pa tp st).st := by
  simp only [score_phase]
  split_ifs with h1 h2 h3 h4
  · exact fun _ => ⟨htp4, htp8, Or.inr (by simp [slice_bytes_len])⟩
  · exact h
  · exact fun _ => ⟨htp4, htp8, Or.inl (by simp [slice_bytes_len])⟩
  · exact h
  · intro h0
    have hbad : (0 : ℤ) ≤ -2 := h0
    omega
  · exact fun h0 => h h0

theorem ite_phase_inv (g : Bool) (a b : DemodState)
    (ha : PhaseInv a) (hb : PhaseInv b) : PhaseInv (if g then a else b) := by
  split <;> assumption

theorem phase_chain_inv (scorer : List ℕ → ℕ → ℤ) (ssSet lsSet : ℕ)
    (m : ℕ → ℕ) (q : ℕ) (g1 g2 g3 : Bool) (st0 : DemodState)
    (h : PhaseInv st0) :
    PhaseInv (phase_chain scorer ssSet lsSet m q g1 g2 g3 st0) := by
  have hA := ite_phase_inv g1 _ st0
    (score_phase_inv scorer ssSet lsSet m q 5 _ (by norm_num) (by norm_num)
      (score_phase_inv scorer ssSet lsSet m q 4 st0 (by norm_num) (by norm_num) h)) h
  have hB := ite_phase_inv g2 _ _
    (score_phase_inv scorer ssSet lsSet m q 7 _ (by norm_num) (by norm_num)
      (score_phase_inv scorer ssSet lsSet m q 6 _ (by norm_num) (by norm_num) hA)) hA
  have hC := ite_phase_inv g3 _ _
    (score_phase_inv scorer ssSet lsSet m q 8 _ (by norm_num) (by norm_num) hB) hB
  exact hC

theorem finish_candidate_sound (decoder : List ℕ → ℤ) (ts q : ℕ)
    (stC : DemodState) (allReads : List ℕ) (hI : PhaseInv stC) (ms : DemodMsg)
    (hm : ms ∈ (finish_candidate decoder ts q stC allReads).msgs) :
    ms.timestamp = ts + ms.offset * 5 + (8 + 56) * 12 + ms.phase ∧
    ms.offset = q ∧ 4 ≤ ms.phase ∧ ms.phase ≤ 8 ∧
    ms.byteLen = ms.bytes.length ∧ (ms.byteLen = 7 ∨ ms.byteLen = 14) := by
  simp only [finish_candidate] at hm
  split at hm
  next h42 => simp at hm
  next h42 =>
    split at hm
    next hneg => simp at hm
    next hneg =>
      split at hm
      next hdec => simp at hm
      next hdec =>
        simp only [List.mem_singleton] at hm
        have hb := hI (not_lt.mp hneg)
        subst hm
        exact ⟨rfl, rfl, hb.1, hb.2.1, rfl, hb.2.2⟩

theorem process_candidate_sound (cfg : DemodCfg) (scorer : List ℕ → ℕ → ℤ)
    (decoder : List ℕ → ℤ) (ssSet lsSet : ℕ) (ts : ℕ) (m : ℕ → ℕ) (q : ℕ)
    (keepB : List ℕ) (keepP : ℕ) (ms : DemodMsg)
    (hm : ms ∈ (process_candidate cfg scorer decoder ssSet lsSet ts m q keepB keepP).msgs) :
    ms.timestamp = ts + ms.offset * 5 + (8 + 56) * 12 + ms.phase ∧
    ms.offset = q ∧ 4 ≤ ms.phase ∧ ms.phase ≤ 8 ∧
    ms.byteLen = ms.bytes.length ∧ (ms.byteLen = 7 ∨ ms.byteLen = 14) := by
  have hst0 : PhaseInv ⟨keepB, -42, keepP⟩ := by intro h0; norm_num at h0
  simp only [process_candidate] at hm
  exact finish_candidate_sound decoder ts q _ _
    (phase_chain_inv scorer ssSet lsSet m q _ _ _ ⟨keepB, -42, keepP⟩ hst0) ms hm

theorem demod_step_sound (cfg : DemodCfg) (scorer : List ℕ → ℕ → ℤ)
    (decoder : List ℕ → ℤ) (ssSet lsSet ts : ℕ) (m : ℕ → ℕ) (stop pa : ℕ)
    (keepB : List ℕ) (keepP : ℕ) (ms : DemodMsg)
    (hm : ms ∈ (demod_step cfg scorer decoder ssSet lsSet ts m stop pa keepB keepP).msgs) :
    (ms.timestamp = ts + ms.offset * 5 + (8 + 56) * 12 + ms.phase ∧
     4 ≤ ms.phase ∧ ms.phase ≤ 8 ∧
     ms.byteLen = ms.bytes.length ∧ (ms.byteLen = 7 ∨ ms.byteLen = 14)) ∧
    ms.offset < stop := by
  simp only [demod_step] at hm
  rcases hfc : (find_candidate m pa 10).1 with _ | q
  · rw [hfc] at hm
    dsimp only at hm
    simp at hm
  · rw [hfc] at hm
    dsimp only at hm
    split at hm
    next hq =>
      dsimp only at hm
      have h := process_candidate_sound cfg scorer decoder ssSet lsSet ts m q
        keepB keepP ms hm
      exact ⟨⟨h.1, h.2.2.1, h.2.2.2.1, h.2.2.2.2.1, h.2.2.2.2.2⟩, h.2.1 ▸ hq⟩
    next hq => simp at hm

theorem demod_loop_sound (cfg : DemodCfg) (scorer : List ℕ → ℕ → ℤ)
    (decoder : List ℕ → ℤ) (ssSet lsSet ts : ℕ) (m : ℕ → ℕ) (stop : ℕ) :
    ∀ (fuel pa : ℕ) (keepB : List ℕ) (keepP : ℕ) (ms : DemodMsg),
      ms ∈ (demod_loop cfg scorer decoder ssSet lsSet ts m stop fuel pa keepB keepP).1 →
      (ms.timestamp = ts + ms.offset * 5 + (8 + 56) * 12 + ms.phase ∧
       4 ≤ ms.phase ∧ ms.phase ≤ 8 ∧
       ms.byteLen = ms.bytes.length ∧ (ms.byteLen = 7 ∨ ms.byteLen = 14)) ∧
      ms.offset < stop := by
  intro fuel
  induction fuel with
  | zero => intro pa kB kP ms hm; simp [demod_loop] at hm
  | succ k ih =>
    intro pa kB kP ms hm
    simp only [demod_loop] at hm
    split at hm
    next hpa =>
      dsimp only at hm
      rcases List.mem_append.mp hm with h | h
      · exact demod_step_sound cfg scorer decoder ssSet lsSet ts m stop pa kB kP ms h
      · exact ih _ _ _ _ h
    next hpa => simp at hm

/- ===================================================================
   Claim theorems
   =================================================================== -/

/-- C2: for every invocation of the byte slicer starting in phase p in
{0,1,2,3,4}, slicing one byte advances the phase to (p+1) mod 5 and the
sample pointer by exactly 19 samples when p is 0..3 and by exactly 20
samples when p is 4 (the 4-to-0 wraparound). -/
theorem slice_byte_stride_spec (m : ℕ → ℕ) (ptr p : ℕ) (hp : p < 5) :
    (slice_byte m ptr p).phase = (p + 1) % 5 ∧
    (slice_byte m ptr p).ptr = ptr + (if p = 4 then 20 else 19) := by
  interval_cases p <;> simp [slice_byte]

/-- Witness for C2: the wraparound case p = 4 at a concrete input. -/
theorem slice_byte_stride_spec_witness :
    (4 : ℕ) < 5 ∧
    ((slice_byte (fun _ => 0) 100 4).phase = (4 + 1) % 5 ∧
     (slice_byte (fun _ => 0) 100 4).ptr = 100 + (if 4 = 4 then 20 else 19)) :=
  ⟨by norm_num, slice_byte_stride_spec (fun _ => 0) 100 4 (by norm_num)⟩

/-- C1: the short DF bitset is exactly {0,4,5,11}; the long DF bitset is
exactly {16,17,18,20,21}, optionally extended with {24..31}, and extended
with every 5-bit value one bit flip away from 17 exactly when CRC-based DF
repair (fixDF with a nonzero nfix_crc) is enabled; a first byte whose DF
lies in the long bitset selects a 14-byte frame (14 bytes sliced, scored
as 14*8 bits) and one whose DF lies in the short bitset (and not the long
one, checked first) selects a 7-byte frame (7 bytes sliced, scored as 7*8
bits); and a first byte whose DF lies in neither bitset aborts the phase
attempt with score -2: no further bytes are sliced, the scorer is not
called, and only the best score (never the best message or phase) is
updated. -/
theorem df_early_gate_spec :
    (∀ df : Fin 32, Nat.testBit valid_df_short_bitset df.val ↔
       (df.val = 0 ∨ df.val = 4 ∨ df.val = 5 ∨ df.val = 11)) ∧
    (∀ (f e : Bool) (n : ℕ) (df : Fin 32),
       Nat.testBit (valid_df_long_bitset f n e) df.val ↔
         ((df.val = 16 ∨ df.val = 17 ∨ df.val = 18 ∨ df.val = 20 ∨ df.val = 21) ∨
          (e = true ∧ 24 ≤ df.val ∧ df.val ≤ 31) ∨
          (f = true ∧ n ≠ 0 ∧ ∃ b : Fin 5, df.val = 17 ^^^ (1 <<< b.val)))) ∧
    (∀ (scorer : List ℕ → ℕ → ℤ) (ssSet lsSet : ℕ) (m : ℕ → ℕ) (pa tp : ℕ)
       (st : DemodState),
       Nat.testBit lsSet ((slice_byte m (pa + 19 + tp / 5) (tp % 5)).byte >>> 3) →
       (score_phase scorer ssSet lsSet m pa tp st).sliced = 14 ∧
       (score_phase scorer ssSet lsSet m pa tp st).scorerCalls.map
         (fun c => (c.1.length, c.2)) = [(14, 14 * 8)]) ∧
    (∀ (scorer : List ℕ → ℕ → ℤ) (ssSet lsSet : ℕ) (m : ℕ → ℕ) (pa tp : ℕ)
       (st : DemodState),
       ¬ Nat.testBit lsSet ((slice_byte m (pa + 19 + tp / 5) (tp % 5)).byte >>> 3) →
       Nat.testBit ssSet ((slice_byte m (pa + 19 + tp / 5) (tp % 5)).byte >>> 3) →
       (score_phase scorer ssSet lsSet m pa tp st).sliced = 7 ∧
       (score_phase scorer ssSet lsSet m pa tp st).scorerCalls.map
         (fun c => (c.1.length, c.2)) = [(7, 7 * 8)]) ∧
    (∀ (scorer : List ℕ → ℕ → ℤ) (ssSet lsSet : ℕ) (m : ℕ → ℕ) (pa tp : ℕ)
       (st : DemodState),
       ¬ Nat.testBit lsSet ((slice_byte m (pa + 19 + tp / 5) (tp % 5)).byte >>> 3) →
       ¬ Nat.testBit ssSet ((slice_byte m (pa + 19 + tp / 5) (tp % 5)).byte >>> 3) →
       (score_phase scorer ssSet lsSet m pa tp st).scorerCalls = [] ∧
       (score_phase scorer ssSet lsSet m pa tp st).sliced = 1 ∧
       (score_phase scorer ssSet lsSet m pa tp st).st =
         { st with bestscore := if st.bestscore < -2 then -2 else st.bestscore }) := by
  refine ⟨by decide, ?_, ?_, ?_, ?_⟩
  · intro f e n df
    by_cases hn : n = 0
    · subst hn
      revert df
      cases f <;> cases e <;> decide
    · have h1 : (n != 0) = true := by simpa using hn
      simp only [valid_df_long_bitset, h1, Bool.and_true]
      simp only [ne_eq, hn, not_false_eq_true, true_and]
      revert df
      cases f <;> cases e <;> decide
  · intro scorer ssSet lsSet m pa tp st hL
    simp only [score_phase]
    rw [if_pos hL]
    exact ⟨rfl, by simp [slice_bytes_len]⟩
  · intro scorer ssSet lsSet m pa tp st hL hS
    simp only [score_phase]
    rw [if_neg hL, if_pos hS]
    exact ⟨rfl, by simp [slice_bytes_len]⟩
  · intro scorer ssSet lsSet m pa tp st hL hS
    simp only [score_phase]
    rw [if_neg hL, if_neg hS]
    exact ⟨rfl, rfl, rfl⟩

/-- Witness for C1's frame-selection and abort parts: at try_phase 4 over
dataA the sliced first byte is 0x88 (DF 17, in the long bitset), so 14
bytes are sliced and scored as 14*8 bits; at try_phase 7 over dataA it is
0x00 (DF 0, in the short bitset only), so 7 bytes are sliced and scored
as 7*8 bits; at try_phase 4 over dataGate it is 0x08 (DF 1, outside both
bitsets with repair disabled), so the attempt makes no scorer call,
slices one byte, and only lifts the best score to -2. -/
theorem df_early_gate_spec_witness :
    (Nat.testBit (valid_df_long_bitset false 0 false)
        ((slice_byte dataA (0 + 19 + 4 / 5) (4 % 5)).byte >>> 3) ∧
     (score_phase scorer0 valid_df_short_bitset (valid_df_long_bitset false 0 false)
        dataA 0 4 ⟨[], -42, 0⟩).sliced = 14 ∧
     (score_phase scorer0 valid_df_short_bitset (valid_df_long_bitset false 0 false)
        dataA 0 4 ⟨[], -42, 0⟩).scorerCalls.map
          (fun c => (c.1.length, c.2)) = [(14, 14 * 8)]) ∧
    ((¬ Nat.testBit (valid_df_long_bitset false 0 false)
        ((slice_byte dataA (0 + 19 + 7 / 5) (7 % 5)).byte >>> 3)) ∧
     Nat.testBit valid_df_short_bitset
        ((slice_byte dataA (0 + 19 + 7 / 5) (7 % 5)).byte >>> 3) ∧
     (score_phase scorer0 valid_df_short_bitset (valid_df_long_bitset false 0 false)
        dataA 0 7 ⟨[], -42, 0⟩).sliced = 7 ∧
     (score_phase scorer0 valid_df_short_bitset (valid_df_long_bitset false 0 false)
        dataA 0 7 ⟨[], -42, 0⟩).scorerCalls.map
          (fun c => (c.1.length, c.2)) = [(7, 7 * 8)]) ∧
    ((¬ Nat.testBit (valid_df_long_bitset false 0 false)
        ((slice_byte dataGate (0 + 19 + 4 / 5) (4 % 5)).byte >>> 3)) ∧
     (¬ Nat.testBit valid_df_short_bitset
        ((slice_byte dataGate (0 + 19 + 4 / 5) (4 % 5)).byte >>> 3))) ∧
    ((score_phase scorer0 valid_df_short_bitset (valid_df_long_bitset false 0 false)
        dataGate 0 4 ⟨[], -42, 0⟩).scorerCalls = [] ∧
     (score_phase scorer0 valid_df_short_bitset (valid_df_long_bitset false 0 false)
        dataGate 0 4 ⟨[], -42, 0⟩).sliced = 1 ∧
     (score_phase scorer0 valid_df_short_bitset (valid_df_long_bitset false 0 false)
        dataGate 0 4 ⟨[], -42, 0⟩).st =
       { (⟨[], -42, 0⟩ : DemodState) with
         bestscore := if ((⟨[], -42, 0⟩ : DemodState)).bestscore < -2 then -2
                      else ((⟨[], -42, 0⟩ : DemodState)).bestscore }) :=
  ⟨⟨by decide,
    df_early_gate_spec.2.2.1 scorer0 valid_df_short_bitset
      (valid_df_long_bitset false 0 false) dataA 0 4 ⟨[], -42, 0⟩ (by decide)⟩,
   ⟨by decide, by decide,
    df_early_gate_spec.2.2.2.1 scorer0 valid_df_short_bitset
      (valid_df_long_bitset false 0 false) dataA 0 7 ⟨[], -42, 0⟩
      (by decide) (by decide)⟩,
   ⟨by decide, by decide⟩,
   df_early_gate_spec.2.2.2.2 scorer0 valid_df_short_bitset
     (valid_df_long_bitset false 0 false) dataGate 0 4 ⟨[], -42, 0⟩
     (by decide) (by decide)⟩

/-- C3: every message accepted by the demodulator is timestamped at the
buffer start timestamp plus offset*5 plus (8+56)*12 plus the winning
phase, where the offset is the sample index at which the preamble was
found (inside the buffer) and the winning phase lies in [4,8]. -/
theorem demod_timestamp_spec (cfg : DemodCfg) (scorer : List ℕ → ℕ → ℤ)
    (decoder : List ℕ → ℤ) (mag : MagBuf) (ms : DemodMsg)
    (hm : ms ∈ (demodulate2400 cfg scorer decoder mag).1) :
    ms.timestamp = mag.sampleTimestamp + ms.offset * 5 + (8 + 56) * 12 + ms.phase ∧
    4 ≤ ms.phase ∧ ms.phase ≤ 8 ∧ ms.offset < mag.length := by
  have h := demod_loop_sound cfg scorer decoder _ _ mag.sampleTimestamp mag.data
    mag.length mag.length 0 [] 0 ms hm
  exact ⟨h.1.1, h.1.2.1, h.1.2.2.1, h.2⟩

/-- Witness for C3: the accepted DF17 message of the concrete buffer bufA. -/
theorem demod_timestamp_spec_witness :
    msgA ∈ (demodulate2400 cfgA scorer0 decoder0 bufA).1 ∧
    (msgA.timestamp = bufA.sampleTimestamp + msgA.offset * 5 + (8 + 56) * 12 + msgA.phase ∧
     4 ≤ msgA.phase ∧ msgA.phase ≤ 8 ∧ msgA.offset < bufA.length) :=
  ⟨by decide, demod_timestamp_spec cfgA scorer0 decoder0 bufA msgA (by decide)⟩

/-- C5 (amended): a magnitude buffer with zero samples produces zero
messages and reads no samples at all; a non-empty buffer shorter than one
preamble window still runs the pre-check, which reads samples at and
beyond the buffer end (the trailing padding the C comments rely on). -/
theorem empty_buffer_no_reads (cfg : DemodCfg) (scorer : List ℕ → ℕ → ℤ)
    (decoder : List ℕ → ℤ) (mag : MagBuf) (h : mag.length = 0) :
    demodulate2400 cfg scorer decoder mag = ([], []) := by
  unfold demodulate2400
  rw [h]
  rfl

/-- Witness for the amended C5 at a concrete empty buffer. -/
theorem empty_buffer_no_reads_witness :
    (MagBuf.mk (fun _ => 0) 0 5).length = 0 ∧
    demodulate2400 cfgA scorer0 decoder0 ⟨fun _ => 0, 0, 5⟩ = ([], []) :=
  ⟨rfl, empty_buffer_no_reads cfgA scorer0 decoder0 ⟨fun _ => 0, 0, 5⟩ rfl⟩

/-- C5 counterexample: bufShort has one sample, fewer than one preamble
window, yet demodulate2400 does not leave the buffer untouched: the
pre-check reads sample indices at and beyond the buffer end, so the claim
"zero messages and no sample at or beyond the buffer end is ever read" is
false as a conjunction at this input. -/
theorem short_buffer_reads_counterexample :
    bufShort.length < preamble_window_samples ∧
    ¬ ((demodulate2400 cfgA scorer0 decoder0 bufShort).1 = [] ∧
       ∀ i ∈ (demodulate2400 cfgA scorer0 decoder0 bufShort).2,
         i < bufShort.length) := by decide

/-- C8 (amended): for every accepted message the clock difference to the
buffer start is offset*5 + (8+56)*12 + phase; the byte boundary implied by
the difference (after removing the phase and offset parts) is always the
end-of-bit-56 boundary of 7 payload bytes, matching the sliced-byte count
exactly when 7 bytes were sliced; 14-byte frames keep the same bit-56
stamp. -/
theorem timestamp_boundary_spec (cfg : DemodCfg) (scorer : List ℕ → ℕ → ℤ)
    (decoder : List ℕ → ℤ) (mag : MagBuf) (ms : DemodMsg)
    (hm : ms ∈ (demodulate2400 cfg scorer decoder mag).1) :
    ms.timestamp - mag.sampleTimestamp = ms.offset * 5 + (8 + 56) * 12 + ms.phase ∧
    impliedPayloadBytes (ms.timestamp - mag.sampleTimestamp - ms.offset * 5 - ms.phase) = 7 ∧
    (ms.byteLen = 7 ∨ ms.byteLen = 14) ∧
    (ms.byteLen = 7 →
      impliedPayloadBytes (ms.timestamp - mag.sampleTimestamp - ms.offset * 5 - ms.phase)
        = ms.byteLen) := by
  have h := demod_loop_sound cfg scorer decoder _ _ mag.sampleTimestamp mag.data
    mag.length mag.length 0 [] 0 ms hm
  have ht := h.1.1
  have hdiff : ms.timestamp - mag.sampleTimestamp
      = ms.offset * 5 + (8 + 56) * 12 + ms.phase := by omega
  have hsub : ms.timestamp - mag.sampleTimestamp - ms.offset * 5 - ms.phase
      = (8 + 56) * 12 := by omega
  refine ⟨hdiff, ?_, h.1.2.2.2.2, ?_⟩
  · rw [hsub]
    decide
  · intro h7
    rw [hsub, h7]
    decide

/-- Witness for the amended C8 at the accepted message of bufA. -/
theorem timestamp_boundary_spec_witness :
    msgA ∈ (demodulate2400 cfgA scorer0 decoder0 bufA).1 ∧
    (msgA.timestamp - bufA.sampleTimestamp
        = msgA.offset * 5 + (8 + 56) * 12 + msgA.phase ∧
     impliedPayloadBytes (msgA.timestamp - bufA.sampleTimestamp - msgA.offset * 5 - msgA.phase) = 7 ∧
     (msgA.byteLen = 7 ∨ msgA.byteLen = 14) ∧
     (msgA.byteLen = 7 →
       impliedPayloadBytes (msgA.timestamp - bufA.sampleTimestamp - msgA.offset * 5 - msgA.phase)
         = msgA.byteLen)) :=
  ⟨by decide, timestamp_boundary_spec cfgA scorer0 decoder0 bufA msgA (by decide)⟩

/-- C8 counterexample: on bufA the demodulator accepts a 14-byte frame
whose timestamp still encodes the end-of-bit-56 (7-byte) boundary, so the
implied byte boundary does not match the sliced-byte count. -/
theorem timestamp_boundary_counterexample :
    ¬ (∀ ms ∈ (demodulate2400 cfgA scorer0 decoder0 bufA).1,
        impliedPayloadBytes (ms.timestamp - bufA.sampleTimestamp - ms.offset * 5 - ms.phase)
          = ms.byteLen) := by decide

/-- C4: evaluation of the event sequence (accept whose record allocation
fails, then the close event for that socket) — the code increments neither
cli_accepted nor num_connections on the failed accept, but the close
handler decrements the uint16 num_connections unconditionally, leaving
accepted = removed = 0 while num_connections wraps to 65535; the claimed
equality accepted - removed = num_connections fails. -/
theorem net_connection_count_underflow :
    (net_run [NetEvent.accept 1 false, NetEvent.close 1]).cli_accepted = 0 ∧
    (net_run [NetEvent.accept 1 false, NetEvent.close 1]).cli_removed = 0 ∧
    (net_run [NetEvent.accept 1 false, NetEvent.close 1]).num_connections = 65535 ∧
    (net_run [NetEvent.accept 1 false, NetEvent.close 1]).conns = [] := by decide

theorem net_connection_recv_true (conns : List ℕ) (rem recv_len : ℕ)
    (h : net_connection_recv ((conns.find? (fun r => r == rem)).isSome) recv_len = true) :
    rem ∈ conns ∧ 0 < recv_len := by
  unfold net_connection_recv at h
  rw [Bool.and_eq_true] at h
  obtain ⟨h1, h2⟩ := h
  refine ⟨?_, of_decide_eq_true h2⟩
  rw [List.find?_isSome] at h1
  obtain ⟨x, hx, he⟩ := h1
  have hxe : x = rem := by simpa using he
  exact hxe ▸ hx

/-- C6 (amended): on every Read event the received bytes are added to the
service byte counter; for RAW_IN decode_RAW_message is issued twice on the
record matching the socket — once as client and once as server — while
for SBS_IN decode_SBS_message is issued exactly once, as server; either
handler body only runs when a matching record exists and the receive
buffer is non-empty. -/
theorem read_event_dispatch_spec (conns : List ℕ) (rem b bytes recv_len : ℕ) :
    (net_handler_read Svc.raw_in conns rem b bytes recv_len).1 = b + bytes ∧
    (net_handler_read Svc.sbs_in conns rem b bytes recv_len).1 = b + bytes ∧
    (net_handler_read Svc.raw_in conns rem b bytes recv_len).2 =
      [⟨MsgHandler.raw, false,
        net_connection_recv ((conns.find? (fun r => r == rem)).isSome) recv_len⟩,
       ⟨MsgHandler.raw, true,
        net_connection_recv ((conns.find? (fun r => r == rem)).isSome) recv_len⟩] ∧
    (net_handler_read Svc.sbs_in conns rem b bytes recv_len).2 =
      [⟨MsgHandler.sbs, true,
        net_connection_recv ((conns.find? (fun r => r == rem)).isSome) recv_len⟩] ∧
    (∀ c ∈ (net_handler_read Svc.raw_in conns rem b bytes recv_len).2,
       c.invoked = true → rem ∈ conns ∧ 0 < recv_len) ∧
    (∀ c ∈ (net_handler_read Svc.sbs_in conns rem b bytes recv_len).2,
       c.invoked = true → rem ∈ conns ∧ 0 < recv_len) := by
  refine ⟨rfl, rfl, rfl, rfl, ?_, ?_⟩
  · intro c hc hinv
    simp only [net_handler_read, List.mem_cons, List.mem_singleton,
      List.not_mem_nil, or_false] at hc
    rcases hc with rfl | rfl <;>
      exact net_connection_recv_true conns rem recv_len hinv
  · intro c hc hinv
    simp only [net_handler_read, List.mem_singleton] at hc
    subst hc
    exact net_connection_recv_true conns rem recv_len hinv

/-- Witness for the amended C6: a concrete invoked call on a matching
record with a non-empty buffer. -/
theorem read_event_dispatch_spec_witness : (3 : ℕ) ∈ [3] ∧ 0 < 2 :=
  (read_event_dispatch_spec [3] 3 10 4 2).2.2.2.2.1
    ⟨MsgHandler.raw, false, true⟩ (by decide) (by decide)

/-- C6 counterexample: a Read on SBS_IN with a matching record and a
non-empty buffer issues exactly one handler call — flagged as server —
so the claimed invocation on both the per-client and the per-server
record is false for SBS_IN. -/
theorem sbs_read_single_call_counterexample :
    (net_handler_read Svc.sbs_in [7] 7 0 5 5).2 = [⟨MsgHandler.sbs, true, true⟩] ∧
    ¬ ∃ c ∈ (net_handler_read Svc.sbs_in [7] 7 0 5 5).2,
        c.as_server = false ∧ c.invoked = true := by decide

/-- C7: evaluation of set_headers at the favicon content types — the
second strcpy copies the content type to the buffer base, overwriting the
"Content-Type: " header name, and the CRLF lands after the terminating
NUL, so the produced header block is just the bare content-type string:
no well-formed "Content-Type: ..." line is present in the favicon
response, contradicting the claim. -/
theorem set_headers_content_type_bug :
    set_headers false false (some MODES_CONTENT_TYPE_PNG) (fun _ => nulChar)
      = "image/png".data ∧
    (set_headers false false (some MODES_CONTENT_TYPE_PNG) (fun _ => nulChar)).take
        "Content-Type: ".data.length ≠ "Content-Type: ".data ∧
    set_headers false false (some MODES_CONTENT_TYPE_ICON) (fun _ => nulChar)
      = "image/x-icon".data ∧
    "image/png".data ≠ ("Content-Type: " ++ "image/png" ++ "\r\n").data := by decide

/-- C9 (amended): any request whose method is neither GET nor HEAD
(case-insensitively) gets status 400 without reaching the URI dispatch;
a GET or HEAD request whose connection-record lookup succeeds always
reaches the URI dispatch; a GET or HEAD request whose lookup fails gets
status 505 without dispatch. -/
theorem http_method_gate_spec (method uri : List Char) (hr ao ff : Bool) :
    (str_ieq method "GET".data = false → str_ieq method "HEAD".data = false →
       net_handler_http method uri hr ao ff = ⟨400, false⟩) ∧
    ((str_ieq method "GET".data = true ∨ str_ieq method "HEAD".data = true) →
       hr = true → (net_handler_http method uri hr ao ff).dispatched = true) ∧
    ((str_ieq method "GET".data = true ∨ str_ieq method "HEAD".data = true) →
       hr = false → net_handler_http method uri hr ao ff = ⟨505, false⟩) := by
  refine ⟨?_, ?_, ?_⟩
  · intro h1 h2
    simp [net_handler_http, h1, h2]
  · intro h hhr
    subst hhr
    rcases h with h | h <;> simp only [net_handler_http, h] <;>
      simp only [Bool.not_true, Bool.false_and, Bool.and_false,
        Bool.false_eq_true, if_false, if_true] <;>
      split_ifs <;> rfl
  · intro h hhr
    subst hhr
    rcases h with h | h <;> simp [net_handler_http, h]

/-- Witness for the amended C9: DELETE is rejected with 400, a lower-case
get with a record dispatches, HEAD without a record gets 505. -/
theorem http_method_gate_spec_witness :
    net_handler_http "DELETE".data "/".data true true true = ⟨400, false⟩ ∧
    (net_handler_http "get".data "/index.html".data true true true).dispatched = true ∧
    net_handler_http "HEAD".data "/".data false true true = ⟨505, false⟩ :=
  ⟨(http_method_gate_spec "DELETE".data "/".data true true true).1
     (by decide) (by decide),
   (http_method_gate_spec "get".data "/index.html".data true true true).2.1
     (Or.inl (by decide)) rfl,
   (http_method_gate_spec "HEAD".data "/".data false true true).2.2
     (Or.inr (by decide)) rfl⟩

/-- C9 counterexample: a GET request whose connection record is missing
returns 505 and never reaches the URI dispatch, so "every GET or HEAD
request proceeds to path dispatch" is false as stated. -/
theorem http_get_no_record_counterexample :
    str_ieq "GET".data "GET".data = true ∧
    (net_handler_http "GET".data "/index.html".data false true true).dispatched = false ∧
    net_handler_http "GET".data "/index.html".data false true true = ⟨505, false⟩ := by
  decide

/-- C10: client_is_unique registers each distinct address at most once —
the first call with an address returns true and appends exactly one entry
(regardless of service), every later call with the same address returns
false and leaves the set unchanged, and when the set is full and cannot be
grown it returns true without recording; the per-service unique-clients
counter in client_handler is incremented exactly when client_is_unique
returns true. -/
theorem client_is_unique_spec (addr svc now : ℕ) (ok : Bool)
    (st : UniqueIPS) (uc : ℕ) :
    ((∃ e ∈ st.entries, e.1 = addr) →
       client_is_unique addr svc now ok st = (false, st)) ∧
    ((¬ ∃ e ∈ st.entries, e.1 = addr) →
       (st.entries.length < st.size ∨ ok = true) →
       (client_is_unique addr svc now ok st).1 = true ∧
       (client_is_unique addr svc now ok st).2.entries
         = st.entries ++ [(addr, svc, now)]) ∧
    ((¬ ∃ e ∈ st.entries, e.1 = addr) → st.size ≤ st.entries.length →
       ok = false → client_is_unique addr svc now ok st = (true, st)) ∧
    (client_handler_accept addr svc now ok st uc).2 =
      (if (client_is_unique addr svc now ok st).1 then uc + 1 else uc) := by
  have hany : st.entries.any (fun e => e.1 == addr) = true ↔
      ∃ e ∈ st.entries, e.1 = addr := by
    rw [List.any_eq_true]
    constructor
    · rintro ⟨x, hx, hb⟩
      exact ⟨x, hx, by simpa using hb⟩
    · rintro ⟨x, hx, hb⟩
      exact ⟨x, hx, by simpa using hb⟩
  refine ⟨?_, ?_, ?_, rfl⟩
  · intro hex
    unfold client_is_unique
    rw [if_pos (hany.mpr hex)]
  · intro hnex hgrow
    unfold client_is_unique
    rw [if_neg (fun hc => hnex (hany.mp hc))]
    rcases hgrow with hlt | hok
    · rw [if_neg (not_le.mpr hlt)]
      exact ⟨rfl, rfl⟩
    · subst hok
      by_cases hfull : st.size ≤ st.entries.length
      · rw [if_pos hfull, if_pos rfl]
        exact ⟨rfl, rfl⟩
      · rw [if_neg hfull]
        exact ⟨rfl, rfl⟩
  · intro hnex hfull hok
    subst hok
    unfold client_is_unique
    rw [if_neg (fun hc => hnex (hany.mp hc)), if_pos hfull, if_neg (by simp)]

/-- Witness for C10: at concrete inputs — a fresh address is appended and
reported unique, a repeated address is rejected with the set unchanged,
and a full set whose grow fails reports unique without recording. -/
theorem client_is_unique_spec_witness :
    ((client_is_unique 5 2 9 true ⟨[], 0⟩).1 = true ∧
     (client_is_unique 5 2 9 true ⟨[], 0⟩).2.entries = [] ++ [(5, 2, 9)]) ∧
    client_is_unique 5 2 9 true ⟨[(5, 2, 9)], 200⟩ = (false, ⟨[(5, 2, 9)], 200⟩) ∧
    client_is_unique 6 2 9 false ⟨[(5, 2, 9)], 1⟩ = (true, ⟨[(5, 2, 9)], 1⟩) :=
  ⟨(client_is_unique_spec 5 2 9 true ⟨[], 0⟩ 0).2.1 (by decide) (Or.inr rfl),
   (client_is_unique_spec 5 2 9 true ⟨[(5, 2, 9)], 200⟩ 0).1 (by decide),
   (client_is_unique_spec 6 2 9 false ⟨[(5, 2, 9)], 1⟩ 0).2.2.1
     (by decide) (by decide) rfl⟩
